import Mathlib

/-!
Verification of the one-search-mcp command-line relay scripts.

The repository holds four Python scripts:
  * `.github/skills/one-search/scripts/search.py`  (direct script, endpoint `search`)
  * `.github/skills/one-search/scripts/scrape.py`  (direct script, endpoint `scrape`)
  * `.github/skills/one-search/scripts/map.py`     (direct script, endpoint `map`)
  * `.github/skills/scripts/one_search_mcp.py`     (the generic relay wrapper)

This file shallowly embeds the scripts.  External collaborators are modelled
as inputs: the JSON codec (`json.loads`) is a parameter `parse` of type
`ParseFn`; the HTTP stack (`urllib.request.urlopen`) is a parameter `http`
of type `HttpFn` that maps the single issued `Request` to its outcome.
File-system state for a config file is a `FileState`; the environment
variable `ONE_SEARCH_URL` is an `Option String`.  Each script main is a pure
function producing a `Trace`: the list of issued requests, the JSON values
printed to stdout, the stderr lines, the process exit code, and whether the
process died with an uncaught exception (CPython then exits with code 1).
-/

namespace OneSearch

/-- JSON values as produced by Python json.loads: null, booleans, integers,
strings, arrays, and objects (association lists, first binding wins on
lookup).  Floating-point numbers are not needed by any script. -/
inductive Json where
  | null
  | bool (b : Bool)
  | num (n : Int)
  | str (s : String)
  | arr (elems : List Json)
  | obj (fields : List (String × Json))

/-- Python truthiness of a JSON-decoded value: None, False, 0, empty string,
empty list and empty dict are falsy. -/
def Json.truthy : Json → Bool
  | .null => false
  | .bool b => b
  | .num n => n != 0
  | .str s => s != ""
  | .arr xs => !xs.isEmpty
  | .obj kvs => !kvs.isEmpty

/-- Python dict.get on a decoded JSON object: the stored value, or None. -/
def lookupField (kvs : List (String × Json)) (k : String) : Option Json :=
  match kvs.find? (fun kv => kv.1 = k) with
  | some kv => some kv.2
  | none => none

mutual

/-- Python json.dumps with the default separators.  String escaping and
non-ASCII escaping are not modelled (no claim exercises them); an object
renders its fields in order. -/
def Json.dumps : Json → String
  | .null => "null"
  | .bool true => "true"
  | .bool false => "false"
  | .num n => toString n
  | .str s => "\"" ++ s ++ "\""
  | .arr xs => "[" ++ Json.dumpsElems xs ++ "]"
  | .obj kvs => "\x7b" ++ Json.dumpsFields kvs ++ "\x7d"

/-- Comma-separated rendering of array elements. -/
def Json.dumpsElems : List Json → String
  | [] => ""
  | [x] => Json.dumps x
  | x :: y :: xs => Json.dumps x ++ ", " ++ Json.dumpsElems (y :: xs)

/-- Comma-separated rendering of object fields. -/
def Json.dumpsFields : List (String × Json) → String
  | [] => ""
  | [kv] => "\"" ++ kv.1 ++ "\": " ++ Json.dumps kv.2
  | kv :: kw :: kvs =>
      "\"" ++ kv.1 ++ "\": " ++ Json.dumps kv.2 ++ ", " ++ Json.dumpsFields (kw :: kvs)

end

/-- State of a config file on disk: missing, present but failing to decode
(json.load raises, `excMsg` is the exception text), or decoding to a value. -/
inductive FileState where
  | absent
  | malformed (excMsg : String)
  | parsed (content : Json)

/-- One outbound HTTP request as handed to urllib.request.urlopen: target
URL, method, body text (UTF-8 encoded by the scripts), headers, and the
timeout in seconds. -/
structure Request where
  url : String
  method : String
  body : Option String
  headers : List (String × String)
  timeout : ℚ

/-- Outcome of an issued request, as seen through urllib: a 2xx response
with a body, an HTTPError (4xx/5xx status plus body), a URLError (transport
failure with a reason), or any other exception. -/
inductive HttpOutcome where
  | success (body : String)
  | httpError (code : Nat) (body : String)
  | urlError (reason : String)
  | otherError (excMsg : String)

/-- Observable behaviour of one script invocation. -/
structure Trace where
  requests : List Request
  stdoutJson : List Json
  stderrLines : List String
  exitCode : Nat
  uncaughtExc : Bool

/-- The external JSON decoder (Python json.loads): either a decoded value or
the exception text of a JSONDecodeError. -/
abbrev ParseFn := String → Except String Json

/-- The external HTTP stack: maps the issued request to its outcome. -/
abbrev HttpFn := Request → HttpOutcome

/-- Python str.rstrip applied with the single character `/`: removes every
trailing slash. -/
def pyRstripSlash (s : String) : String :=
  String.mk ((s.data.reverse.dropWhile (fun c => c = '/')).reverse)

/-- The error block printed by get_server_url in search.py and map.py when
neither a config file nor the environment variable yields a URL. -/
def errNoUrlMsgs : List String :=
  ["❌ エラー: サーバーURLが設定されていません",
   "\n設定方法1: 設定ファイル",
   "  1. references/config.example.json を references/config.json にコピー",
   "  2. mcp_server_url を編集",
   "\n設定方法2: 環境変数",
   "  export ONE_SEARCH_URL=http://localhost:8000"]

/-- Steps 2 and 3 of get_server_url: read ONE_SEARCH_URL; a set, nonempty
value is returned, otherwise the error block is printed and None returned. -/
def envResolve (env : Option String) : Option Json × List String :=
  match env with
  | some s => if s ≠ "" then (some (.str s), []) else (none, errNoUrlMsgs)
  | none => (none, errNoUrlMsgs)

/-- The warning line search.py prints when reading the config file raises;
the exception text is interpolated. -/
def warnSearch (e : String) : String := "⚠ 警告: 設定ファイル読み込みエラー: " ++ e

/-- get_server_url of search.py: a parsed config object answers the lookup
of mcp_server_url directly (even when the key is missing, in which case None
is returned without consulting the environment); any exception while reading
the file (decode error, or attribute error when the file decodes to a
non-object) prints a warning and falls through to the environment variable.
Returns the resolved value and the stderr lines printed. -/
def search_get_server_url (cfg : FileState) (env : Option String) :
    Option Json × List String :=
  match cfg with
  | .parsed (.obj kvs) => (lookupField kvs "mcp_server_url", [])
  | .parsed _ =>
      let r := envResolve env
      (r.1, warnSearch "AttributeError" :: r.2)
  | .malformed e =>
      let r := envResolve env
      (r.1, warnSearch e :: r.2)
  | .absent => envResolve env

/-- The warning line map.py prints on a config read error.  The source uses
doubled braces in the f-string, so the literal text brace-e-brace is printed
instead of the exception message. -/
def warnMap : String := "⚠ 警告: 設定ファイル読み込みエラー: \x7be\x7d"

/-- get_server_url of map.py: like search.py but honouring a one-hop
skill_root_path redirect.  A truthy string redirect re-reads config from the
redirected location (`redirect` is the state of that second file); failure
anywhere inside the try block prints the warning and falls through to the
environment variable. -/
def map_get_server_url (cfg redirect : FileState) (env : Option String) :
    Option Json × List String :=
  match cfg with
  | .absent => envResolve env
  | .malformed _ =>
      let r := envResolve env
      (r.1, warnMap :: r.2)
  | .parsed (.obj kvs) =>
      match lookupField kvs "skill_root_path" with
      | some v =>
          if v.truthy then
            match v with
            | .str _ =>
                match redirect with
                | .parsed (.obj kvs2) => (lookupField kvs2 "mcp_server_url", [])
                | _ =>
                    let r := envResolve env
                    (r.1, warnMap :: r.2)
            | _ =>
                let r := envResolve env
                (r.1, warnMap :: r.2)
          else (lookupField kvs "mcp_server_url", [])
      | none => (lookupField kvs "mcp_server_url", [])
  | .parsed _ =>
      let r := envResolve env
      (r.1, warnMap :: r.2)

/-- The request a direct script builds: trailing slashes stripped from the
server URL, the endpoint appended under /api/tools/, a POST whose body is
the UTF-8 JSON serialization of the parameters, with a Content-Type header. -/
def direct_request (serverUrl endpoint : String) (tmo : ℚ) (params : Json) : Request :=
  { url := pyRstripSlash serverUrl ++ "/api/tools/" ++ endpoint,
    method := "POST",
    body := some params.dumps,
    headers := [("Content-Type", "application/json")],
    timeout := tmo }

/-- Shared request phase of the three direct script mains (their code is
verbatim-identical apart from endpoint, timeout and usage text): check the
positional argument, decode it, build and issue the request, then translate
the outcome.  A truthy non-string server URL reaches the rstrip call and
dies with an uncaught AttributeError. -/
def runDirect (parse : ParseFn) (http : HttpFn) (serverUrl : Json)
    (endpoint : String) (tmo : ℚ) (arg1 : Option String)
    (noArgMsgs : List String) : Trace :=
  match arg1 with
  | none => ⟨[], [], noArgMsgs, 1, false⟩
  | some a =>
    match parse a with
    | .error e => ⟨[], [], ["❌ エラー: 無効なJSON形式: " ++ e], 1, false⟩
    | .ok params =>
      match serverUrl with
      | .str s =>
        let req := direct_request s endpoint tmo params
        match http req with
        | .success body =>
          match parse body with
          | .ok result => ⟨[req], [result], [], 0, false⟩
          | .error e => ⟨[req], [], ["❌ エラー: " ++ e], 1, false⟩
        | .httpError code body =>
            ⟨[req], [], ["❌ HTTPエラー [" ++ toString code ++ "]: " ++ body], 1, false⟩
        | .urlError reason =>
            ⟨[req], [], ["❌ 接続エラー: " ++ reason, "サーバーURL: " ++ s], 1, false⟩
        | .otherError e => ⟨[req], [], ["❌ エラー: " ++ e], 1, false⟩
      | _ => ⟨[], [], [], 1, true⟩

/-- Usage lines search.py prints when the positional argument is missing
(the quoted example line is abbreviated). -/
def searchNoArgMsgs : List String :=
  ["❌ エラー: 検索パラメータが必要です", "\n使用例:", "  python search.py <json-params>"]

/-- Usage lines scrape.py prints when the positional argument is missing
(the quoted example line is abbreviated). -/
def scrapeNoArgMsgs : List String :=
  ["❌ エラー: スクレイピングパラメータが必要です", "\n使用例:", "  python scrape.py <json-params>"]

/-- Usage lines map.py prints when the positional argument is missing
(the quoted example line is abbreviated). -/
def mapNoArgMsgs : List String :=
  ["❌ エラー: マッピングパラメータが必要です", "\n使用例:", "  python map.py <json-params>"]

/-- Error lines scrape.py prints when ONE_SEARCH_URL is unset
(the quoted example line is abbreviated). -/
def scrapeEnvErrMsgs : List String :=
  ["❌ エラー: 環境変数 ONE_SEARCH_URL が設定されていません",
   "\n設定方法:", "  export ONE_SEARCH_URL=http://localhost:8000",
   "\n使用例:", "  python scrape.py <json-params>"]

/-- Prepend stderr lines (from URL resolution) to a trace. -/
def Trace.withStderrPre (msgs : List String) (t : Trace) : Trace :=
  ⟨t.requests, t.stdoutJson, msgs ++ t.stderrLines, t.exitCode, t.uncaughtExc⟩

/-- main of search.py: resolve the server URL (config file then environment
variable), exit 1 when the result is falsy, otherwise run the shared request
phase for endpoint search with a 60-second timeout. -/
def search_main (parse : ParseFn) (http : HttpFn) (cfg : FileState)
    (env : Option String) (arg1 : Option String) : Trace :=
  let r := search_get_server_url cfg env
  match r.1 with
  | none => ⟨[], [], r.2, 1, false⟩
  | some u =>
    if u.truthy then
      Trace.withStderrPre r.2 (runDirect parse http u "search" 60 arg1 searchNoArgMsgs)
    else ⟨[], [], r.2, 1, false⟩

/-- main of map.py: like search.py but with the map endpoint, a 120-second
timeout, and the redirect-aware URL resolution. -/
def map_main (parse : ParseFn) (http : HttpFn) (cfg redirect : FileState)
    (env : Option String) (arg1 : Option String) : Trace :=
  let r := map_get_server_url cfg redirect env
  match r.1 with
  | none => ⟨[], [], r.2, 1, false⟩
  | some u =>
    if u.truthy then
      Trace.withStderrPre r.2 (runDirect parse http u "map" 120 arg1 mapNoArgMsgs)
    else ⟨[], [], r.2, 1, false⟩

/-- main of scrape.py: no config file is consulted, only ONE_SEARCH_URL; a
set, nonempty value runs the shared request phase for endpoint scrape with a
120-second timeout. -/
def scrape_main (parse : ParseFn) (http : HttpFn) (env : Option String)
    (arg1 : Option String) : Trace :=
  match env with
  | some s =>
      if s ≠ "" then runDirect parse http (.str s) "scrape" 120 arg1 scrapeNoArgMsgs
      else ⟨[], [], scrapeEnvErrMsgs, 1, false⟩
  | none => ⟨[], [], scrapeEnvErrMsgs, 1, false⟩

/-- The hardcoded configuration load_config of one_search_mcp.py silently
returns when mcp-config.json is absent. -/
def defaultRelayConfig : Json :=
  .obj [("one_search_url", .str "http://localhost:8000"),
        ("search_provider", .str "local"),
        ("search_timeout", .num 30000)]

/-- load_config of one_search_mcp.py: only FileNotFoundError is caught (and
answered with the hardcoded default); a malformed file raises an uncaught
JSONDecodeError, modelled as the error branch. -/
def load_config : FileState → Except String Json
  | .absent => .ok defaultRelayConfig
  | .malformed e => .error e
  | .parsed j => .ok j

/-- dict.get with a default on a decoded config value; non-objects have no
get attribute (call sites treat that as an uncaught exception). -/
def configGet (config : Json) (k : String) : Option Json :=
  match config with
  | .obj kvs => lookupField kvs k
  | _ => none

/-- base_url in call_api and health: config.get with the localhost default.
A present non-string value would be coerced by the f-string; its rendering
is approximated by the JSON serialization (no claim exercises this). -/
def configBaseUrl (config : Json) : String :=
  match configGet config "one_search_url" with
  | some (.str s) => s
  | some v => v.dumps
  | none => "http://localhost:8000"

/-- timeout in call_api: config.get of search_timeout (milliseconds,
defaulting to 30000) divided by 1000. -/
def configTimeoutSec (config : Json) : ℚ :=
  (match configGet config "search_timeout" with
   | some (.num n) => (n : ℚ)
   | _ => 30000) / 1000

/-- Whether the config accesses at the top of call_api succeed: the config
must be a dict and search_timeout, when present, numeric (a non-numeric
value makes the division raise; a non-dict config makes .get raise).  Both
accesses happen before the try block, so failure is an uncaught exception. -/
def config_usable : Json → Bool
  | .obj kvs =>
      match lookupField kvs "search_timeout" with
      | some (.num _) => true
      | none => true
      | some _ => false
  | _ => false

/-- Python truthiness of the optional data argument of call_api. -/
def dataTruthy : Option Json → Bool
  | some d => d.truthy
  | none => false

/-- default_headers.update(headers): later entries override same-named
headers and append otherwise. -/
def updateHeaders (base extra : List (String × String)) : List (String × String) :=
  extra.foldl
    (fun acc kv =>
      if acc.any (fun p => p.1 = kv.1)
      then acc.map (fun p => if p.1 = kv.1 then kv else p)
      else acc ++ [kv])
    base

/-- The request call_api builds: the base URL concatenated verbatim with the
endpoint (no slash stripping); a POST with the JSON-serialized body when
data is truthy, and a bodiless GET otherwise (urllib.request.Request with no
data defaults to GET) — in particular an empty dict is falsy and yields a
GET. -/
def call_api_request (config : Json) (endpoint : String) (data : Option Json)
    (headers : List (String × String)) : Request :=
  { url := configBaseUrl config ++ endpoint,
    method := if dataTruthy data then "POST" else "GET",
    body :=
      match data with
      | some d => if d.truthy then some d.dumps else none
      | none => none,
    headers := updateHeaders [("Content-Type", "application/json")] headers,
    timeout := configTimeoutSec config }

/-- Envelope returned by call_api. -/
structure ApiResult where
  success : Bool
  result : Option Json
  error : Option Json

/-- The error message call_api surfaces for an HTTPError: the body is read
and decoded; a decoded dict yields its error field (or str(e), rendered as
"HTTP Error code", when the field is missing); any failure inside that
attempt (decode error, or .get on a non-dict) is caught by the bare except
and yields "HTTP code: body". -/
def httpErrorMsg (parse : ParseFn) (code : Nat) (body : String) : Json :=
  match parse body with
  | .ok (.obj kvs) =>
      match lookupField kvs "error" with
      | some v => v
      | none => .str ("HTTP Error " ++ toString code)
  | .ok _ => .str ("HTTP " ++ toString code ++ ": " ++ body)
  | .error _ => .str ("HTTP " ++ toString code ++ ": " ++ body)

/-- Translation of the request outcome inside the try block of call_api: a 2xx
body that decodes yields the success envelope; a 2xx body that fails to
decode falls to the generic except clause; HTTPError and URLError have
dedicated clauses. -/
def call_api_response (parse : ParseFn) : HttpOutcome → ApiResult
  | .success body =>
      match parse body with
      | .ok j => ⟨true, some j, none⟩
      | .error e => ⟨false, none, some (.str e)⟩
  | .httpError code body => ⟨false, none, some (httpErrorMsg parse code body)⟩
  | .urlError reason => ⟨false, none, some (.str ("接続エラー: " ++ reason))⟩
  | .otherError e => ⟨false, none, some (.str e)⟩

/-- call_api of one_search_mcp.py: load the config (a malformed file
propagates as an uncaught exception), read base_url and timeout (uncaught on
an unusable config), then issue exactly one request and translate its
outcome.  Returns the envelope together with the issued requests. -/
def call_api (parse : ParseFn) (http : HttpFn) (cfg : FileState)
    (endpoint : String) (data : Option Json)
    (headers : List (String × String)) :
    Except String (ApiResult × List Request) :=
  match load_config cfg with
  | .error e => .error e
  | .ok config =>
    if config_usable config then
      .ok (call_api_response parse (http (call_api_request config endpoint data headers)),
           [call_api_request config endpoint data headers])
    else .error "AttributeError or TypeError on config access"

/-- The request health of one_search_mcp.py builds: a bodiless GET to
base_url/health under a 5-second timeout, with no explicit headers. -/
def health_request (config : Json) : Request :=
  { url := configBaseUrl config ++ "/health", method := "GET",
    body := none, headers := [], timeout := 5 }

/-- Outcome translation of health: one try/except Exception catches
everything, so every failure yields the failure envelope with str(e); the
HTTPError and URLError renderings are approximated by code and reason. -/
def relay_health_response (parse : ParseFn) : HttpOutcome → ApiResult
  | .success body =>
      match parse body with
      | .ok j => ⟨true, some j, none⟩
      | .error e => ⟨false, none, some (.str e)⟩
  | .httpError code _ => ⟨false, none, some (.str ("HTTP Error " ++ toString code))⟩
  | .urlError reason => ⟨false, none, some (.str reason)⟩
  | .otherError e => ⟨false, none, some (.str e)⟩

/-- health of one_search_mcp.py: load_config and the base_url access sit
outside the try block, so a malformed or non-dict config is an uncaught
exception; otherwise one GET to /health is issued. -/
def relay_health (parse : ParseFn) (http : HttpFn) (cfg : FileState) :
    Except String (ApiResult × List Request) :=
  match load_config cfg with
  | .error e => .error e
  | .ok config =>
    match config with
    | .obj _ =>
        .ok (relay_health_response parse (http (health_request config)),
             [health_request config])
    | _ => .error "AttributeError"

/-- The envelope printed by one_search_mcp.py main: the dict literally built
by call_api or health. -/
def envelopeJson (r : ApiResult) : Json :=
  if r.success then
    .obj [("success", .bool true), ("result", r.result.getD .null)]
  else
    .obj [("success", .bool false), ("error", r.error.getD .null)]

/-- Usage text of one_search_mcp.py. -/
def relayUsageMsg : String :=
  "Usage: python one_search_mcp.py <command> [json_args]\nCommands: search, scrape, map, extract, health"

/-- The command table of one_search_mcp.py. -/
def relayCommands : List String := ["search", "scrape", "map", "extract", "health"]

/-- Dispatch step of one_search_mcp.py main, after the command word has been
split off: the second argument is decoded by a bare json.loads (a decode
failure is an uncaught exception — the interpreter exits 1 with a traceback
and nothing is printed by the script); a known command dispatches (health
ignoring the arguments, the others sending them under /api/tools/<command>);
an unknown command prints an error envelope; otherwise the resulting
envelope is printed and the exit code is 0 exactly when success is true. -/
def relay_dispatch (parse : ParseFn) (http : HttpFn) (cfg : FileState)
    (command : String) (argsE : Except String Json) : Trace :=
  match argsE with
  | .error _ => ⟨[], [], [], 1, true⟩
  | .ok args =>
    if relayCommands.contains command then
      let call : Except String (ApiResult × List Request) :=
        if command = "health" then relay_health parse http cfg
        else call_api parse http cfg ("/api/tools/" ++ command) (some args) []
      match call with
      | .error _ => ⟨[], [], [], 1, true⟩
      | .ok (res, reqs) =>
          ⟨reqs, [envelopeJson res], [], if res.success then 0 else 1, false⟩
    else
      ⟨[],
       [.obj [("success", .bool false),
              ("error", .str ("Unknown command: " ++ command
                ++ "\nAvailable commands: search, scrape, map, extract, health"))]],
       [], 1, false⟩

/-- Entry point of one_search_mcp.py main: no command prints the usage
envelope and exits 1; otherwise the second argument (defaulting to the empty
mapping) is decoded and the command dispatched. -/
def relay_main (parse : ParseFn) (http : HttpFn) (cfg : FileState)
    (argv : List String) : Trace :=
  match argv with
  | [] => ⟨[], [.obj [("success", .bool false), ("error", .str relayUsageMsg)]], [], 1, false⟩
  | command :: rest =>
      relay_dispatch parse http cfg command
        (match rest with
         | a :: _ => parse a
         | [] => .ok (.obj []))

/-- The configuration call_api ends up using when load_config succeeds. -/
def resolved_config (cfg : FileState) : Json :=
  match load_config cfg with
  | .ok c => c
  | .error _ => .null

/-- Whether an outcome is a 2xx response whose body decodes as JSON — the
condition stated by the spec for a success envelope. -/
def responseParsedOk (parse : ParseFn) : HttpOutcome → Bool
  | .success body =>
      match parse body with
      | .ok _ => true
      | .error _ => false
  | .httpError _ _ => false
  | .urlError _ => false
  | .otherError _ => false

/-- Whether the character list `sub` is a leading segment of `l`. -/
def listPrefixEq : List Char → List Char → Bool
  | [], _ => true
  | _ :: _, [] => false
  | a :: as, b :: bs => a = b && listPrefixEq as bs

/-- Whether the character list `sub` occurs contiguously inside `l`. -/
def listContains (sub : List Char) : List Char → Bool
  | [] => listPrefixEq sub []
  | c :: cs => listPrefixEq sub (c :: cs) || listContains sub cs

/-- Substring containment on strings. -/
def strContainsSub (s sub : String) : Bool :=
  listContains sub.data s.data

/-! ### Helper lemmas -/

/-- A character list is a leading segment of itself. -/
theorem listPrefixEq_self (l : List Char) : listPrefixEq l l = true := by
  induction l with
  | nil => rfl
  | cons c cs ih => simp [listPrefixEq, ih]

/-- A character list occurs inside anything that ends with it. -/
theorem listContains_append_self (pre sub : List Char) :
    listContains sub (pre ++ sub) = true := by
  induction pre with
  | nil =>
    cases sub with
    | nil => rfl
    | cons c cs => simp [listContains, listPrefixEq_self]
  | cons x xs ih => simp [listContains, ih]

/-- A string contains any of its trailing segments. -/
theorem strContainsSub_append_self (pre sub : String) :
    strContainsSub (pre ++ sub) sub = true := by
  unfold strContainsSub
  rw [String.data_append]
  exact listContains_append_self pre.data sub.data

/-- A string contains itself. -/
theorem strContainsSub_self (s : String) : strContainsSub s s = true := by
  cases s with
  | mk l =>
    cases l with
    | nil => rfl
    | cons c cs => simp [strContainsSub, listContains, listPrefixEq_self]

/-- Appending one slash does not change the result of stripping trailing
slashes. -/
theorem pyRstripSlash_append_slash (s : String) :
    pyRstripSlash (s ++ "/") = pyRstripSlash s := by
  have hd : ("/" : String).data = ['/'] := rfl
  unfold pyRstripSlash
  rw [String.data_append, hd]
  simp [List.dropWhile_cons]

/-- A set, nonempty environment variable resolves to its value. -/
theorem envResolve_some (s : String) (hs : s ≠ "") :
    envResolve (some s) = (some (.str s), []) := by
  simp [envResolve, hs]

/-- The shared request phase issues exactly the built request once the
positional argument decodes, whatever the outcome of the call. -/
theorem runDirect_requests (parse : ParseFn) (http : HttpFn) (s ep : String)
    (tmo : ℚ) (a : String) (params : Json) (msgs : List String)
    (hp : parse a = .ok params) :
    (runDirect parse http (.str s) ep tmo (some a) msgs).requests
      = [direct_request s ep tmo params] := by
  simp only [runDirect, hp]
  cases h : http (direct_request s ep tmo params) with
  | success body => cases hb : parse body <;> simp [hb]
  | httpError code body => simp
  | urlError reason => simp
  | otherError e => simp

/-- call_api under an absent config file uses the hardcoded default
configuration and issues exactly the request built from it. -/
theorem call_api_absent (parse : ParseFn) (http : HttpFn) (ep : String)
    (data : Option Json) (hdrs : List (String × String)) :
    call_api parse http .absent ep data hdrs
      = .ok (call_api_response parse
               (http (call_api_request defaultRelayConfig ep data hdrs)),
             [call_api_request defaultRelayConfig ep data hdrs]) :=
  rfl

/-- Splitting relay main into the dispatch step, two-argument form. -/
theorem relay_main_cons (parse : ParseFn) (http : HttpFn) (cfg : FileState)
    (command a : String) (rest : List String) :
    relay_main parse http cfg (command :: a :: rest)
      = relay_dispatch parse http cfg command (parse a) :=
  rfl

/-- Splitting relay main into the dispatch step, command-only form: the
missing argument becomes the empty mapping. -/
theorem relay_main_one (parse : ParseFn) (http : HttpFn) (cfg : FileState)
    (command : String) :
    relay_main parse http cfg [command]
      = relay_dispatch parse http cfg command (.ok (.obj [])) :=
  rfl

/-- An invocation that fails fast: exit code 1, no network request issued,
and an explanatory message on the error stream. -/
def failsFast (t : Trace) : Prop :=
  t.exitCode = 1 ∧ t.requests = [] ∧ t.stderrLines ≠ []

/-! ### Claim theorems -/

/-- C1 (amended): for the direct scripts the claim holds on the paths that
reach the environment-variable fallback — with the config file absent or
unreadable and ONE_SEARCH_URL unset or empty, search.py, map.py and
scrape.py exit 1 with an explanatory stderr message and no network call, and
a parsed config that lacks the URL key still exits 1 with no network call
(though silently).  The relay wrapper, however, never fails resolution: with
its config file absent it silently substitutes the hardcoded default
http://localhost:8000 and issues the request. -/
theorem c1_fail_fast (parse : ParseFn) (http : HttpFn) (env : Option String)
    (arg1 : Option String) (e : String) (redirect : FileState)
    (h : env = none ∨ env = some "") :
    failsFast (search_main parse http .absent env arg1)
    ∧ failsFast (search_main parse http (.malformed e) env arg1)
    ∧ failsFast (map_main parse http .absent redirect env arg1)
    ∧ failsFast (map_main parse http (.malformed e) redirect env arg1)
    ∧ failsFast (scrape_main parse http env arg1)
    ∧ search_main parse http (.parsed (.obj [])) env arg1 = ⟨[], [], [], 1, false⟩
    ∧ (relay_main parse http .absent ["search"]).requests.length = 1
    ∧ (relay_main parse http .absent ["search"]).stderrLines = [] := by
  rcases h with h | h <;> subst h <;>
    exact ⟨⟨rfl, rfl, List.cons_ne_nil _ _⟩, ⟨rfl, rfl, List.cons_ne_nil _ _⟩,
           ⟨rfl, rfl, List.cons_ne_nil _ _⟩, ⟨rfl, rfl, List.cons_ne_nil _ _⟩,
           ⟨rfl, rfl, List.cons_ne_nil _ _⟩, rfl, rfl, rfl⟩

/-- C1 witness: the theorem instantiated at an unset environment variable,
absent config files, and a transport-failing HTTP stack. -/
theorem c1_fail_fast_witness :
    failsFast (search_main (fun _ => .ok .null) (fun _ => .urlError "x") .absent none none)
    ∧ failsFast (search_main (fun _ => .ok .null) (fun _ => .urlError "x") (.malformed "boom") none none)
    ∧ failsFast (map_main (fun _ => .ok .null) (fun _ => .urlError "x") .absent .absent none none)
    ∧ failsFast (map_main (fun _ => .ok .null) (fun _ => .urlError "x") (.malformed "boom") .absent none none)
    ∧ failsFast (scrape_main (fun _ => .ok .null) (fun _ => .urlError "x") none none)
    ∧ search_main (fun _ => .ok .null) (fun _ => .urlError "x") (.parsed (.obj [])) none none
        = ⟨[], [], [], 1, false⟩
    ∧ (relay_main (fun _ => .ok .null) (fun _ => .urlError "x") .absent ["search"]).requests.length = 1
    ∧ (relay_main (fun _ => .ok .null) (fun _ => .urlError "x") .absent ["search"]).stderrLines = [] :=
  c1_fail_fast (fun _ => .ok .null) (fun _ => .urlError "x") none none "boom" .absent (Or.inl rfl)

/-- C4 (amended): the three direct scripts strip every trailing slash from
the resolved server URL before endpoint concatenation, so a trailing slash
yields exactly the same request URL; the relay wrapper instead concatenates
the configured base URL verbatim with the endpoint, so there a trailing
slash yields a different (double-slash) request URL. -/
theorem c4_trailing_slash (s ep : String) (tmo : ℚ) (params : Json)
    (config : Json) (data : Option Json) (hdrs : List (String × String)) :
    (direct_request (s ++ "/") ep tmo params).url = (direct_request s ep tmo params).url
    ∧ (call_api_request config ep data hdrs).url = configBaseUrl config ++ ep := by
  exact ⟨by simp [direct_request, pyRstripSlash_append_slash], rfl⟩

/-- C8 (amended): the three direct scripts treat a missing positional
parameter argument as a usage error — stderr usage lines, exit code 1, no
request sent; the relay wrapper instead treats the omission as the empty
parameter mapping and does send a request. -/
theorem c8_no_arg_usage (parse : ParseFn) (http : HttpFn) (s : String)
    (hs : s ≠ "") :
    search_main parse http .absent (some s) none = ⟨[], [], searchNoArgMsgs, 1, false⟩
    ∧ scrape_main parse http (some s) none = ⟨[], [], scrapeNoArgMsgs, 1, false⟩
    ∧ map_main parse http .absent .absent (some s) none = ⟨[], [], mapNoArgMsgs, 1, false⟩
    ∧ (relay_main parse http .absent ["search"]).requests.length = 1 := by
  have he := envResolve_some s hs
  refine ⟨?_, ?_, ?_, rfl⟩
  · simp [search_main, search_get_server_url, he, Json.truthy, hs,
          Trace.withStderrPre, runDirect]
  · simp [scrape_main, hs, runDirect]
  · simp [map_main, map_get_server_url, he, Json.truthy, hs,
          Trace.withStderrPre, runDirect]

/-- C8 witness: the theorem instantiated at a concrete server URL with no
positional argument supplied. -/
theorem c8_no_arg_usage_witness :
    search_main (fun _ => .ok .null) (fun _ => .urlError "x") .absent (some "http://h:8000") none
        = ⟨[], [], searchNoArgMsgs, 1, false⟩
    ∧ scrape_main (fun _ => .ok .null) (fun _ => .urlError "x") (some "http://h:8000") none
        = ⟨[], [], scrapeNoArgMsgs, 1, false⟩
    ∧ map_main (fun _ => .ok .null) (fun _ => .urlError "x") .absent .absent (some "http://h:8000") none
        = ⟨[], [], mapNoArgMsgs, 1, false⟩
    ∧ (relay_main (fun _ => .ok .null) (fun _ => .urlError "x") .absent ["search"]).requests.length = 1 :=
  c8_no_arg_usage (fun _ => .ok .null) (fun _ => .urlError "x") "http://h:8000" (by decide)

/-- C6 (amended): the three direct scripts catch a malformed command-line
JSON argument, print a JSON-format usage error on stderr, and exit 1 with no
network call; the relay wrapper also exits 1 with no network call, but via
an uncaught JSONDecodeError, without reporting any usage error. -/
theorem c6_malformed_arg (parse : ParseFn) (http : HttpFn) (s a e : String)
    (hs : s ≠ "") (hp : parse a = .error e) :
    search_main parse http .absent (some s) (some a)
      = ⟨[], [], ["❌ エラー: 無効なJSON形式: " ++ e], 1, false⟩
    ∧ scrape_main parse http (some s) (some a)
      = ⟨[], [], ["❌ エラー: 無効なJSON形式: " ++ e], 1, false⟩
    ∧ map_main parse http .absent .absent (some s) (some a)
      = ⟨[], [], ["❌ エラー: 無効なJSON形式: " ++ e], 1, false⟩
    ∧ relay_main parse http .absent ["search", a] = ⟨[], [], [], 1, true⟩ := by
  have he := envResolve_some s hs
  refine ⟨?_, ?_, ?_, ?_⟩
  · simp [search_main, search_get_server_url, he, Json.truthy, hs,
          Trace.withStderrPre, runDirect, hp]
  · simp [scrape_main, hs, runDirect, hp]
  · simp [map_main, map_get_server_url, he, Json.truthy, hs,
          Trace.withStderrPre, runDirect, hp]
  · rw [relay_main_cons, hp]
    rfl

/-- C6 witness: the theorem instantiated at a decoder that rejects the
argument. -/
theorem c6_malformed_arg_witness :
    search_main (fun _ => .error "Expecting value") (fun _ => .urlError "x")
        .absent (some "http://h:8000") (some "oops")
      = ⟨[], [], ["❌ エラー: 無効なJSON形式: " ++ "Expecting value"], 1, false⟩
    ∧ scrape_main (fun _ => .error "Expecting value") (fun _ => .urlError "x")
        (some "http://h:8000") (some "oops")
      = ⟨[], [], ["❌ エラー: 無効なJSON形式: " ++ "Expecting value"], 1, false⟩
    ∧ map_main (fun _ => .error "Expecting value") (fun _ => .urlError "x")
        .absent .absent (some "http://h:8000") (some "oops")
      = ⟨[], [], ["❌ エラー: 無効なJSON形式: " ++ "Expecting value"], 1, false⟩
    ∧ relay_main (fun _ => .error "Expecting value") (fun _ => .urlError "x")
        .absent ["search", "oops"] = ⟨[], [], [], 1, true⟩ :=
  c6_malformed_arg (fun _ => .error "Expecting value") (fun _ => .urlError "x")
    "http://h:8000" "oops" "Expecting value" (by decide) rfl

/-- C7 (amended): in search.py and map.py a config file that exists but is
malformed JSON is reported as a warning, is non-fatal, and resolution
continues to the environment-variable fallback; in the relay wrapper a
malformed mcp-config.json instead raises an uncaught JSONDecodeError — no
warning, fatal, and the relay has no environment fallback at all. -/
theorem c7_malformed_config (parse : ParseFn) (http : HttpFn) (e s : String)
    (redirect : FileState) (hs : s ≠ "") :
    search_get_server_url (.malformed e) (some s) = (some (.str s), [warnSearch e])
    ∧ map_get_server_url (.malformed e) redirect (some s) = (some (.str s), [warnMap])
    ∧ search_main parse http (.malformed e) (some s) none
        = ⟨[], [], warnSearch e :: searchNoArgMsgs, 1, false⟩
    ∧ relay_main parse http (.malformed e) ["health"] = ⟨[], [], [], 1, true⟩ := by
  have he := envResolve_some s hs
  refine ⟨?_, ?_, ?_, rfl⟩
  · simp [search_get_server_url, he]
  · simp [map_get_server_url, he]
  · simp [search_main, search_get_server_url, he, Json.truthy, hs,
          Trace.withStderrPre, runDirect]

/-- C7 witness: the theorem instantiated at a malformed config file and a
set environment variable. -/
theorem c7_malformed_config_witness :
    search_get_server_url (.malformed "Expecting value") (some "http://h:8000")
        = (some (.str "http://h:8000"), [warnSearch "Expecting value"])
    ∧ map_get_server_url (.malformed "Expecting value") .absent (some "http://h:8000")
        = (some (.str "http://h:8000"), [warnMap])
    ∧ search_main (fun _ => .ok .null) (fun _ => .urlError "x")
        (.malformed "Expecting value") (some "http://h:8000") none
        = ⟨[], [], warnSearch "Expecting value" :: searchNoArgMsgs, 1, false⟩
    ∧ relay_main (fun _ => .ok .null) (fun _ => .urlError "x")
        (.malformed "Expecting value") ["health"] = ⟨[], [], [], 1, true⟩ :=
  c7_malformed_config (fun _ => .ok .null) (fun _ => .urlError "x")
    "Expecting value" "http://h:8000" .absent (by decide)

/-- C10 (amended): in search.py always, and in map.py when the parsed
config declares no skill_root_path redirect (or declares one whose
redirected config loads and also lacks the key), a valid-JSON config file
without an mcp_server_url key makes get_server_url return None regardless of
ONE_SEARCH_URL, and the invocation exits 1 with no request; but if the redirect declared for map.py fails to load, a warning is printed and the environment
variable is consulted after all. -/
theorem c10_config_without_key (parse : ParseFn) (http : HttpFn)
    (kvs kvs2 : List (String × Json)) (p : String) (redirect : FileState)
    (env : Option String) (arg1 : Option String)
    (h1 : lookupField kvs "mcp_server_url" = none)
    (h2 : lookupField kvs "skill_root_path" = none)
    (h3 : lookupField kvs2 "mcp_server_url" = none)
    (hp : p ≠ "") :
    search_get_server_url (.parsed (.obj kvs)) env = (none, [])
    ∧ map_get_server_url (.parsed (.obj kvs)) redirect env = (none, [])
    ∧ map_get_server_url (.parsed (.obj [("skill_root_path", .str p)]))
        (.parsed (.obj kvs2)) env = (none, [])
    ∧ search_main parse http (.parsed (.obj kvs)) env arg1 = ⟨[], [], [], 1, false⟩
    ∧ map_main parse http (.parsed (.obj kvs)) redirect env arg1 = ⟨[], [], [], 1, false⟩ := by
  have hl : lookupField [("skill_root_path", Json.str p)] "skill_root_path"
      = some (.str p) := rfl
  refine ⟨?_, ?_, ?_, ?_, ?_⟩
  · simp [search_get_server_url, h1]
  · simp [map_get_server_url, h2, h1]
  · simp [map_get_server_url, hl, Json.truthy, hp, h3]
  · simp [search_main, search_get_server_url, h1]
  · simp [map_main, map_get_server_url, h2, h1]

/-- C10 witness: the theorem instantiated at a config holding only a
provider key, with the environment variable set. -/
theorem c10_config_without_key_witness :
    search_get_server_url (.parsed (.obj [("search_provider", .str "duckduckgo")]))
        (some "http://h:8000") = (none, [])
    ∧ map_get_server_url (.parsed (.obj [("search_provider", .str "duckduckgo")]))
        .absent (some "http://h:8000") = (none, [])
    ∧ map_get_server_url (.parsed (.obj [("skill_root_path", .str "/root")]))
        (.parsed (.obj [])) (some "http://h:8000") = (none, [])
    ∧ search_main (fun _ => .ok .null) (fun _ => .urlError "x")
        (.parsed (.obj [("search_provider", .str "duckduckgo")]))
        (some "http://h:8000") none = ⟨[], [], [], 1, false⟩
    ∧ map_main (fun _ => .ok .null) (fun _ => .urlError "x")
        (.parsed (.obj [("search_provider", .str "duckduckgo")])) .absent
        (some "http://h:8000") none = ⟨[], [], [], 1, false⟩ :=
  c10_config_without_key (fun _ => .ok .null) (fun _ => .urlError "x")
    [("search_provider", .str "duckduckgo")] [] "/root" .absent
    (some "http://h:8000") none rfl rfl rfl (by decide)

/-- C2 (amended): the direct scripts build the target URL as the stripped
base URL plus /api/tools/ plus the endpoint and always issue a single POST
whose body is the UTF-8 JSON serialization of the mapping, with a
Content-Type application/json header.  The relay wrapper does the same for a
nonempty mapping (base URL concatenated verbatim), but for the empty mapping
it issues a bodiless GET instead of a POST; its health command issues a GET
to the base URL plus /health with no body. -/
theorem c2_request_shape (parse : ParseFn) (http : HttpFn) (s a b c : String)
    (params : Json) (kv : String × Json) (kvt : List (String × Json))
    (hs : s ≠ "") (hpa : parse a = .ok params)
    (hpb : parse b = .ok (.obj (kv :: kvt)))
    (hpc : parse c = .ok (.obj [])) :
    (search_main parse http .absent (some s) (some a)).requests
      = [direct_request s "search" 60 params]
    ∧ (scrape_main parse http (some s) (some a)).requests
      = [direct_request s "scrape" 120 params]
    ∧ (map_main parse http .absent .absent (some s) (some a)).requests
      = [direct_request s "map" 120 params]
    ∧ direct_request s "search" 60 params
      = ⟨pyRstripSlash s ++ "/api/tools/" ++ "search", "POST", some params.dumps,
         [("Content-Type", "application/json")], 60⟩
    ∧ (relay_main parse http .absent ["search", b]).requests
      = [⟨"http://localhost:8000" ++ "/api/tools/search", "POST",
          some (Json.obj (kv :: kvt)).dumps, [("Content-Type", "application/json")],
          configTimeoutSec defaultRelayConfig⟩]
    ∧ (relay_main parse http .absent ["search", c]).requests.map (fun r => (r.method, r.body))
      = [("GET", none)]
    ∧ (relay_main parse http .absent ["health"]).requests
      = [⟨"http://localhost:8000/health", "GET", none, [], 5⟩] := by
  have he := envResolve_some s hs
  have h1 := runDirect_requests parse http s "search" 60 a params searchNoArgMsgs hpa
  have h2 := runDirect_requests parse http s "scrape" 120 a params scrapeNoArgMsgs hpa
  have h3 := runDirect_requests parse http s "map" 120 a params mapNoArgMsgs hpa
  refine ⟨?_, ?_, ?_, rfl, ?_, ?_, ?_⟩
  · simp [search_main, search_get_server_url, he, Json.truthy, hs,
          Trace.withStderrPre, h1]
  · simp [scrape_main, hs, h2]
  · simp [map_main, map_get_server_url, he, Json.truthy, hs,
          Trace.withStderrPre, h3]
  · rw [relay_main_cons, hpb]
    rfl
  · rw [relay_main_cons, hpc]
    rfl
  · rw [relay_main_one]
    rfl

/-- C2 witness: the theorem instantiated at a server URL with a trailing
slash, a one-field mapping, and the empty mapping. -/
theorem c2_request_shape_witness :
    (search_main
        (fun t => if t = "B" then .ok (.obj []) else .ok (.obj [("query", .str "ai")]))
        (fun _ => .urlError "x") .absent (some "http://h:8000/") (some "A")).requests
      = [direct_request "http://h:8000/" "search" 60 (.obj [("query", .str "ai")])]
    ∧ (scrape_main
        (fun t => if t = "B" then .ok (.obj []) else .ok (.obj [("query", .str "ai")]))
        (fun _ => .urlError "x") (some "http://h:8000/") (some "A")).requests
      = [direct_request "http://h:8000/" "scrape" 120 (.obj [("query", .str "ai")])]
    ∧ (map_main
        (fun t => if t = "B" then .ok (.obj []) else .ok (.obj [("query", .str "ai")]))
        (fun _ => .urlError "x") .absent .absent (some "http://h:8000/") (some "A")).requests
      = [direct_request "http://h:8000/" "map" 120 (.obj [("query", .str "ai")])]
    ∧ direct_request "http://h:8000/" "search" 60 (.obj [("query", .str "ai")])
      = ⟨pyRstripSlash "http://h:8000/" ++ "/api/tools/" ++ "search", "POST",
         some (Json.obj [("query", .str "ai")]).dumps,
         [("Content-Type", "application/json")], 60⟩
    ∧ (relay_main
        (fun t => if t = "B" then .ok (.obj []) else .ok (.obj [("query", .str "ai")]))
        (fun _ => .urlError "x") .absent ["search", "A"]).requests
      = [⟨"http://localhost:8000" ++ "/api/tools/search", "POST",
          some (Json.obj (("query", Json.str "ai") :: [])).dumps,
          [("Content-Type", "application/json")], configTimeoutSec defaultRelayConfig⟩]
    ∧ (relay_main
        (fun t => if t = "B" then .ok (.obj []) else .ok (.obj [("query", .str "ai")]))
        (fun _ => .urlError "x") .absent ["search", "B"]).requests.map
          (fun r => (r.method, r.body))
      = [("GET", none)]
    ∧ (relay_main
        (fun t => if t = "B" then .ok (.obj []) else .ok (.obj [("query", .str "ai")]))
        (fun _ => .urlError "x") .absent ["health"]).requests
      = [⟨"http://localhost:8000/health", "GET", none, [], 5⟩] :=
  c2_request_shape
    (fun t => if t = "B" then .ok (.obj []) else .ok (.obj [("query", .str "ai")]))
    (fun _ => .urlError "x") "http://h:8000/" "A" "A" "B"
    (.obj [("query", .str "ai")]) ("query", .str "ai") []
    (by decide) rfl rfl rfl

/-- C3 (amended): the direct scripts issue their requests under fixed
timeouts of 60 seconds (search) and 120 seconds (scrape and map), and the
health check of the relay wrapper uses a 5-second timeout, as claimed; but the
non-health endpoints of the relay wrapper use the configured search_timeout
divided by 1000, which under the default configuration is 30 seconds — not
within the claimed 60-to-120-second range. -/
theorem c3_timeouts (parse : ParseFn) (http : HttpFn) (s a : String)
    (params : Json) (hs : s ≠ "") (hpa : parse a = .ok params) :
    (search_main parse http .absent (some s) (some a)).requests.map (fun r => r.timeout)
      = [60]
    ∧ (scrape_main parse http (some s) (some a)).requests.map (fun r => r.timeout)
      = [120]
    ∧ (map_main parse http .absent .absent (some s) (some a)).requests.map (fun r => r.timeout)
      = [120]
    ∧ (relay_main parse http .absent ["health"]).requests.map (fun r => r.timeout)
      = [5]
    ∧ (relay_main parse http .absent ["search", a]).requests.map (fun r => r.timeout)
      = [30] := by
  have he := envResolve_some s hs
  have h1 := runDirect_requests parse http s "search" 60 a params searchNoArgMsgs hpa
  have h2 := runDirect_requests parse http s "scrape" 120 a params scrapeNoArgMsgs hpa
  have h3 := runDirect_requests parse http s "map" 120 a params mapNoArgMsgs hpa
  have ht : configTimeoutSec defaultRelayConfig = 30 := by
    have h0 : configTimeoutSec defaultRelayConfig = ((30000 : Int) : ℚ) / 1000 := rfl
    rw [h0]; norm_num
  have hreq : (relay_dispatch parse http .absent "search" (.ok params)).requests
      = [call_api_request defaultRelayConfig "/api/tools/search" (some params) []] := rfl
  refine ⟨?_, ?_, ?_, ?_, ?_⟩
  · simp [search_main, search_get_server_url, he, Json.truthy, hs,
          Trace.withStderrPre, h1, direct_request]
  · simp [scrape_main, hs, h2, direct_request]
  · simp [map_main, map_get_server_url, he, Json.truthy, hs,
          Trace.withStderrPre, h3, direct_request]
  · rw [relay_main_one]
    rfl
  · rw [relay_main_cons, hpa, hreq]
    simp [call_api_request, ht]

/-- C3 witness: the theorem instantiated at a concrete server URL and
mapping. -/
theorem c3_timeouts_witness :
    (search_main (fun _ => .ok (.obj [("q", .str "1")])) (fun _ => .urlError "x")
        .absent (some "http://h:8000") (some "A")).requests.map (fun r => r.timeout)
      = [60]
    ∧ (scrape_main (fun _ => .ok (.obj [("q", .str "1")])) (fun _ => .urlError "x")
        (some "http://h:8000") (some "A")).requests.map (fun r => r.timeout)
      = [120]
    ∧ (map_main (fun _ => .ok (.obj [("q", .str "1")])) (fun _ => .urlError "x")
        .absent .absent (some "http://h:8000") (some "A")).requests.map (fun r => r.timeout)
      = [120]
    ∧ (relay_main (fun _ => .ok (.obj [("q", .str "1")])) (fun _ => .urlError "x")
        .absent ["health"]).requests.map (fun r => r.timeout)
      = [5]
    ∧ (relay_main (fun _ => .ok (.obj [("q", .str "1")])) (fun _ => .urlError "x")
        .absent ["search", "A"]).requests.map (fun r => r.timeout)
      = [30] :=
  c3_timeouts (fun _ => .ok (.obj [("q", .str "1")])) (fun _ => .urlError "x")
    "http://h:8000" "A" (.obj [("q", .str "1")]) (by decide) rfl

/-- The envelope call_api builds is a success exactly when the outcome is a
2xx response whose body decodes. -/
theorem call_api_response_success (parse : ParseFn) (o : HttpOutcome) :
    (call_api_response parse o).success = responseParsedOk parse o := by
  cases o with
  | success body => cases hb : parse body <;> simp [call_api_response, responseParsedOk, hb]
  | httpError c b => rfl
  | urlError r => rfl
  | otherError e => rfl

/-- A failure envelope from call_api always carries an error value. -/
theorem call_api_response_error_of_failure (parse : ParseFn) (o : HttpOutcome)
    (h : (call_api_response parse o).success = false) :
    (call_api_response parse o).error ≠ none := by
  cases o with
  | success body =>
    cases hb : parse body
    · simp [call_api_response, hb]
    · simp [call_api_response, hb] at h
  | httpError c b => simp [call_api_response]
  | urlError r => simp [call_api_response]
  | otherError e => simp [call_api_response]

/-- C5: whenever call_api of the relay wrapper returns an envelope (rather
than propagating an uncaught exception), exactly one request was issued, and
the envelope has success true if and only if the HTTP call returned a 2xx
status with a body that decoded as JSON; in every other outcome success is
false and an error value is present. -/
theorem c5_success_envelope (parse : ParseFn) (http : HttpFn) (cfg : FileState)
    (endpoint : String) (data : Option Json) (hdrs : List (String × String))
    (res : ApiResult) (reqs : List Request)
    (h : call_api parse http cfg endpoint data hdrs = .ok (res, reqs)) :
    reqs = [call_api_request (resolved_config cfg) endpoint data hdrs]
    ∧ res.success = responseParsedOk parse
        (http (call_api_request (resolved_config cfg) endpoint data hdrs))
    ∧ (res.success = false → res.error ≠ none) := by
  cases hc : load_config cfg with
  | error e =>
    rw [call_api, hc] at h
    exact absurd h (by simp)
  | ok config =>
    simp only [call_api, hc] at h
    have hrc : resolved_config cfg = config := by rw [resolved_config, hc]
    by_cases hu : config_usable config = true
    · rw [if_pos hu] at h
      rw [Except.ok.injEq, Prod.mk.injEq] at h
      obtain ⟨h1, h2⟩ := h
      subst h1
      subst h2
      rw [hrc]
      exact ⟨rfl, call_api_response_success parse _,
             fun hf => call_api_response_error_of_failure parse _ hf⟩
    · rw [if_neg hu] at h
      exact absurd h (by simp)

/-- C5 witness: the theorem instantiated at an absent config file, a decoder
accepting everything, and a 2xx HTTP stack. -/
theorem c5_success_envelope_witness :
    [call_api_request defaultRelayConfig "/api/tools/search"
        (some (.obj [("q", .str "a")])) []]
      = [call_api_request (resolved_config .absent) "/api/tools/search"
          (some (.obj [("q", .str "a")])) []]
    ∧ (true : Bool) = responseParsedOk (fun _ => .ok .null) (.success "null")
    ∧ ((true : Bool) = false → ApiResult.error ⟨true, some Json.null, none⟩ ≠ none) :=
  c5_success_envelope (fun _ => .ok .null) (fun _ => .success "null") .absent
    "/api/tools/search" (some (.obj [("q", .str "a")])) []
    ⟨true, some Json.null, none⟩
    [call_api_request defaultRelayConfig "/api/tools/search"
      (some (.obj [("q", .str "a")])) []] rfl

/-- C9 (amended): for every 4xx/5xx response the scripts read the body,
surface it, and exit 1 — but the JSON-parse-and-extract-error-field step is
performed only by the relay wrapper; the direct scripts always emit the raw
status-plus-body line without attempting extraction (that line still
contains the body, so a 404 whose body is the not-found object yields a
message containing "not found" in every script). -/
theorem c9_http_error_surface (parse : ParseFn) (http : HttpFn) (s a : String)
    (params : Json) (code : Nat) (body : String)
    (kvs2 : List (String × Json)) (e2 : String)
    (hs : s ≠ "") (hpa : parse a = .ok params)
    (hh : ∀ r, http r = .httpError code body)
    (hb : parse body = .ok (.obj kvs2))
    (he2 : lookupField kvs2 "error" = some (.str e2)) :
    search_main parse http .absent (some s) (some a)
      = ⟨[direct_request s "search" 60 params], [],
         ["❌ HTTPエラー [" ++ toString code ++ "]: " ++ body], 1, false⟩
    ∧ strContainsSub ("❌ HTTPエラー [" ++ toString code ++ "]: " ++ body) body = true
    ∧ httpErrorMsg parse code body = .str e2
    ∧ relay_main parse http .absent ["search", a]
      = ⟨[call_api_request defaultRelayConfig "/api/tools/search" (some params) []],
         [envelopeJson ⟨false, none, some (.str e2)⟩], [], 1, false⟩
    ∧ strContainsSub e2 e2 = true := by
  have he := envResolve_some s hs
  have hmsg : httpErrorMsg parse code body = .str e2 := by
    simp [httpErrorMsg, hb, he2]
  have hd : relay_dispatch parse http .absent "search" (.ok params)
      = ⟨[call_api_request defaultRelayConfig "/api/tools/search" (some params) []],
         [envelopeJson (call_api_response parse
            (http (call_api_request defaultRelayConfig "/api/tools/search" (some params) [])))],
         [],
         if (call_api_response parse
              (http (call_api_request defaultRelayConfig "/api/tools/search" (some params) []))).success
         then 0 else 1, false⟩ := rfl
  refine ⟨?_, strContainsSub_append_self _ body, hmsg, ?_, strContainsSub_self e2⟩
  · simp [search_main, search_get_server_url, he, Json.truthy, hs,
          Trace.withStderrPre, runDirect, hpa, hh]
  · rw [relay_main_cons, hpa, hd, hh]
    simp [call_api_response, hmsg]

/-- C9 witness: the theorem instantiated at the 404 not-found example. -/
theorem c9_http_error_surface_witness :
    search_main
        (fun t => if t = "\x7b\"error\":\"not found\"\x7d"
          then .ok (.obj [("error", .str "not found")]) else .ok (.obj [("url", .str "u")]))
        (fun _ => .httpError 404 "\x7b\"error\":\"not found\"\x7d")
        .absent (some "http://h:8000") (some "arg")
      = ⟨[direct_request "http://h:8000" "search" 60 (.obj [("url", .str "u")])], [],
         ["❌ HTTPエラー [" ++ toString (404 : Nat) ++ "]: " ++ "\x7b\"error\":\"not found\"\x7d"],
         1, false⟩
    ∧ strContainsSub
        ("❌ HTTPエラー [" ++ toString (404 : Nat) ++ "]: " ++ "\x7b\"error\":\"not found\"\x7d")
        "\x7b\"error\":\"not found\"\x7d" = true
    ∧ httpErrorMsg
        (fun t => if t = "\x7b\"error\":\"not found\"\x7d"
          then .ok (.obj [("error", .str "not found")]) else .ok (.obj [("url", .str "u")]))
        404 "\x7b\"error\":\"not found\"\x7d" = .str "not found"
    ∧ relay_main
        (fun t => if t = "\x7b\"error\":\"not found\"\x7d"
          then .ok (.obj [("error", .str "not found")]) else .ok (.obj [("url", .str "u")]))
        (fun _ => .httpError 404 "\x7b\"error\":\"not found\"\x7d")
        .absent ["search", "arg"]
      = ⟨[call_api_request defaultRelayConfig "/api/tools/search"
            (some (.obj [("url", .str "u")])) []],
         [envelopeJson ⟨false, none, some (.str "not found")⟩], [], 1, false⟩
    ∧ strContainsSub "not found" "not found" = true :=
  c9_http_error_surface
    (fun t => if t = "\x7b\"error\":\"not found\"\x7d"
      then .ok (.obj [("error", .str "not found")]) else .ok (.obj [("url", .str "u")]))
    (fun _ => .httpError 404 "\x7b\"error\":\"not found\"\x7d")
    "http://h:8000" "arg" (.obj [("url", .str "u")]) 404
    "\x7b\"error\":\"not found\"\x7d" [("error", .str "not found")] "not found"
    (by decide) rfl (fun _ => rfl) rfl rfl

/-! ### Counterexamples for the claims the code refutes -/

/-- C1 counterexample: with the config file of the relay wrapper absent (and no
environment fallback — the relay consults none), URL resolution does not
fail: the invocation of `python one_search_mcp.py search` issues one network
request (to the hardcoded default base URL) and prints nothing on stderr,
contradicting the claim that resolution fails fast with a stderr message and
that no network call is attempted. -/
theorem c1_counterexample :
    (relay_main (fun _ => .ok .null) (fun _ => .urlError "connection refused")
        .absent ["search"]).requests.length = 1
    ∧ (relay_main (fun _ => .ok .null) (fun _ => .urlError "connection refused")
        .absent ["search"]).stderrLines = [] :=
  ⟨rfl, rfl⟩

/-- C2 counterexample: for the empty parameter mapping, call_api of the
relay wrapper builds a GET request with no body (the empty dict is falsy),
not the claimed POST with a serialized JSON body. -/
theorem c2_counterexample :
    (call_api_request defaultRelayConfig "/api/tools/search" (some (.obj [])) []).method = "GET"
    ∧ (call_api_request defaultRelayConfig "/api/tools/search" (some (.obj [])) []).body = none :=
  ⟨rfl, rfl⟩

/-- C3 counterexample: with the default configuration of the relay wrapper, a
search invocation is issued under a 30-second timeout, which is not within
the claimed 60-to-120-second range. -/
theorem c3_counterexample :
    (call_api_request defaultRelayConfig "/api/tools/search"
        (some (.obj [("query", .str "x")])) []).timeout = 30
    ∧ ¬ ((60 : ℚ) ≤ (call_api_request defaultRelayConfig "/api/tools/search"
        (some (.obj [("query", .str "x")])) []).timeout) := by
  have ht : (call_api_request defaultRelayConfig "/api/tools/search"
      (some (.obj [("query", .str "x")])) []).timeout = ((30000 : Int) : ℚ) / 1000 := rfl
  refine ⟨by rw [ht]; norm_num, by rw [ht]; norm_num⟩

/-- C4 counterexample: the relay wrapper concatenates the configured base
URL verbatim, so a trailing slash yields a double-slash request URL, not the
same URL as without the slash. -/
theorem c4_counterexample :
    (call_api_request (.obj [("one_search_url", .str "http://h:8000/")])
        "/api/tools/search" (some (.obj [("q", .str "x")])) []).url
      = "http://h:8000//api/tools/search"
    ∧ ("http://h:8000//api/tools/search" : String) ≠ "http://h:8000/api/tools/search" :=
  ⟨rfl, by decide⟩

/-- C6 counterexample: a malformed JSON command-line argument makes the
relay wrapper die with an uncaught JSONDecodeError (exit code 1 via the
interpreter, no network call), with no usage error reported on either
stream. -/
theorem c6_counterexample :
    relay_main (fun _ => .error "Expecting value") (fun _ => .urlError "x")
        .absent ["search", "oops"] = ⟨[], [], [], 1, true⟩ :=
  rfl

/-- C7 counterexample: a config file that exists but holds malformed JSON
makes the relay wrapper die with an uncaught JSONDecodeError: no warning is
printed, the failure is fatal, and no environment-variable fallback is
consulted (the relay has none). -/
theorem c7_counterexample :
    relay_main (fun _ => .ok .null) (fun _ => .urlError "x")
        (.malformed "Expecting value: line 1 column 1") ["health"] = ⟨[], [], [], 1, true⟩ :=
  rfl

/-- C8 counterexample: invoking the search command of the relay wrapper with no
positional JSON argument is not treated as a usage error: a request is
issued with the empty mapping (and, because the empty dict is falsy, it is
even sent as a bodiless GET). -/
theorem c8_counterexample :
    (relay_main (fun _ => .ok .null) (fun _ => .urlError "refused")
        .absent ["search"]).requests.map (fun r => (r.method, r.body)) = [("GET", none)] :=
  rfl

/-- C9 counterexample: for the same parseable 400 body, the relay wrapper
surfaces the extracted error field, while search.py emits the raw
status-plus-body line — it never attempts the claimed JSON extraction, and
its message is not the extracted field. -/
theorem c9_counterexample :
    (call_api
        (fun t => if t = "\x7b\"error\":\"bad\"\x7d"
          then .ok (.obj [("error", .str "bad")]) else .ok (.obj []))
        (fun _ => .httpError 400 "\x7b\"error\":\"bad\"\x7d")
        .absent "/api/tools/search" (some (.obj [("q", .str "x")])) []).map
        (fun p => p.1.error)
      = .ok (some (.str "bad"))
    ∧ (search_main
        (fun t => if t = "\x7b\"error\":\"bad\"\x7d"
          then .ok (.obj [("error", .str "bad")]) else .ok (.obj []))
        (fun _ => .httpError 400 "\x7b\"error\":\"bad\"\x7d")
        .absent (some "http://h:8000") (some "arg")).stderrLines
      = ["❌ HTTPエラー [400]: \x7b\"error\":\"bad\"\x7d"]
    ∧ ("❌ HTTPエラー [400]: \x7b\"error\":\"bad\"\x7d" : String) ≠ "bad" :=
  ⟨rfl, rfl, by decide⟩

/-- C10 counterexample: in map.py, a config file that parses as valid JSON
and contains no mcp_server_url key, but declares a skill_root_path whose
redirected config file is missing, does consult ONE_SEARCH_URL: the
environment value (not None) is returned, after a warning. -/
theorem c10_counterexample :
    map_get_server_url (.parsed (.obj [("skill_root_path", .str "/missing")]))
        .absent (some "http://h:8000")
      = (some (.str "http://h:8000"), [warnMap]) :=
  rfl

end OneSearch
